import Mathlib

/-!
Verification of the Blinkit position-tracker consolidation, pivot and
classification engine (`src/app.py`) against its natural-language
specification.  The pandas data-frame pipeline of `main()` is shallowly
embedded: cells are strings, rationals or missing (`NaN`), a data frame is a
column list plus rows, and each numbered step of `main()` becomes a Lean
function named after the operation it performs.
-/

namespace Blinkit

/-- A single spreadsheet cell: a string, a number, or missing (pandas `NaN`). -/
inductive Cell where
  | str (s : String)
  | num (q : ℚ)
  | na
deriving DecidableEq, Repr

/-- A data-frame row: an association list from column name to cell. -/
abbrev Row := List (String × Cell)

/-- A data frame: the column index plus the rows (`app.py` `master_df`). -/
structure DataFrame where
  cols : List String
  rows : List Row
deriving DecidableEq, Repr

/-- Cell lookup; a column absent from a row reads as `NaN`, as in a pandas
frame produced by `pd.concat` over heterogeneous sources. -/
def getCell (r : Row) (c : String) : Cell :=
  ((r.find? (fun p => p.1 = c)).map Prod.snd).getD Cell.na

/-- `pd.concat(all_dfs, ignore_index=True, sort=False)` (app.py line 38):
every row is aligned to the combined column index, missing entries `NaN`. -/
def reindex (df : DataFrame) : DataFrame :=
  { cols := df.cols,
    rows := df.rows.map (fun r => df.cols.map (fun c => (c, getCell r c))) }

def isSpaceChar (c : Char) : Bool := c = ' ' ∨ c = '\t' ∨ c = '\n' ∨ c = '\r'

/-- Strip surrounding whitespace from a string (Python `str.strip()`). -/
def trimStr (s : String) : String :=
  String.mk (((s.toList.dropWhile isSpaceChar).reverse.dropWhile isSpaceChar).reverse)

/-- `master_df.columns.str.strip()` (app.py line 39): column names are
trimmed of surrounding whitespace. -/
def stripCols (df : DataFrame) : DataFrame :=
  { cols := df.cols.map trimStr,
    rows := df.rows.map (fun r => r.map (fun p => (trimStr p.1, p.2))) }

/-- Target-identifier resolution (app.py lines 42-45): the priority chain
`Keyword` > `Category Name` > `Asset` is decided on the combined frame's
column index; the winning column's cell is copied verbatim per row, and the
sentinel "N/A" is used only when none of the three columns exists. -/
def resolveTarget (cols : List String) (r : Row) : Cell :=
  if "Keyword" ∈ cols then getCell r "Keyword"
  else if "Category Name" ∈ cols then getCell r "Category Name"
  else if "Asset" ∈ cols then getCell r "Asset"
  else Cell.str "N/A"

/-- Overwrite (or create) column `c` of the frame with a per-row value. -/
def setCol (df : DataFrame) (c : String) (f : Row → Cell) : DataFrame :=
  { cols := (df.cols.filter (fun x => x ≠ c)) ++ [c],
    rows := df.rows.map (fun r => (r.filter (fun p => p.1 ≠ c)) ++ [(c, f r)]) }

/-- `master_df['Target'] = ...` (app.py lines 42-45). -/
def addTarget (df : DataFrame) : DataFrame :=
  setCol df "Target" (resolveTarget df.cols)

/-- Day of week, used for the weekly-trend grouping. -/
inductive Weekday where
  | monday | tuesday | wednesday | thursday | friday | saturday | sunday
deriving DecidableEq, Repr

/-- The fixed categorical order of app.py line 51. -/
def dayOrder : List Weekday :=
  [.monday, .tuesday, .wednesday, .thursday, .friday, .saturday, .sunday]

def dayName : Weekday → String
  | .monday => "Monday"
  | .tuesday => "Tuesday"
  | .wednesday => "Wednesday"
  | .thursday => "Thursday"
  | .friday => "Friday"
  | .saturday => "Saturday"
  | .sunday => "Sunday"

def dayFromName (s : String) : Weekday :=
  if s = "Tuesday" then .tuesday
  else if s = "Wednesday" then .wednesday
  else if s = "Thursday" then .thursday
  else if s = "Friday" then .friday
  else if s = "Saturday" then .saturday
  else if s = "Sunday" then .sunday
  else .monday

/-- Date conversion (app.py lines 48-54).  `pd.to_datetime`, `dt.day_name()`
and `dt.strftime('%Y-%m-%d')` are library calls; they are abstracted as a
caller-supplied decoder from the raw date cell to the pair
(`date_str` canonical "YYYY-MM-DD" string, day of week).  The columns
`Day of Week` and `date_str` are added only when `date_ist` is present;
otherwise the frame passes through unchanged and no error is raised. -/
def addDateCols (dateFn : Cell → String × Weekday) (df : DataFrame) : DataFrame :=
  if "date_ist" ∈ df.cols then
    let df1 := setCol df "Day of Week"
      (fun r => Cell.str (dayName (dateFn (getCell r "date_ist")).2))
    setCol df1 "date_str" (fun r => Cell.str (dateFn (getCell r "date_ist")).1)
  else df

/-- Rounding to two decimals, as `pandas.round(2)` (half-tie behaviour is
immaterial to every value computed below). -/
def round2 (q : ℚ) : ℚ := ((round (q * 100) : ℤ) : ℚ) / 100

/-- Decimal-literal parsing, modelling `pd.to_numeric` on a string cell:
an optional sign, digits, an optional fractional part.  Anything else
fails (`errors='coerce'` then yields `NaN`). -/
def parseDigits (l : List Char) : ℕ :=
  l.foldl (fun a c => a * 10 + (c.toNat - 48)) 0

def parseNum (s : String) : Option ℚ :=
  let cs := s.toList
  let signed : Bool × List Char :=
    match cs with
    | '-' :: t => (true, t)
    | '+' :: t => (false, t)
    | t => (false, t)
  let body := signed.2
  let intPart := body.takeWhile Char.isDigit
  let rest := body.dropWhile Char.isDigit
  let mag : Option ℚ :=
    match rest with
    | [] => if intPart.isEmpty then none else some (parseDigits intPart : ℚ)
    | '.' :: frac =>
      if frac.all Char.isDigit ∧ ¬(intPart.isEmpty ∧ frac.isEmpty) then
        some ((parseDigits intPart : ℚ) + (parseDigits frac : ℚ) / (10 : ℚ) ^ frac.length)
      else none
    | _ => none
  mag.map (fun q => if signed.1 then -q else q)

/-- The metric columns of app.py line 57. -/
def numericCols : List String :=
  ["Direct Sales", "Estimated Budget Consumed", "CPM", "Direct RoAS",
   "Impressions", "Most Viewed Position"]

/-- Per-cell numeric coercion
(`pd.to_numeric(..., errors='coerce').fillna(0).round(2)`, app.py line 60):
parse failures and missing values become 0, and the result is rounded to two
decimals already at normalization time. -/
def coerceCell (c : Cell) : ℚ :=
  round2 (match c with
    | .num q => q
    | .str s => (parseNum s).getD 0
    | .na => 0)

/-- app.py lines 58-60: every metric column present is coerced in place. -/
def coerceNumerics (df : DataFrame) : DataFrame :=
  { cols := df.cols,
    rows := df.rows.map (fun r =>
      r.map (fun p => if p.1 ∈ numericCols then (p.1, Cell.num (coerceCell p.2)) else p)) }

/-- The record normalizer (app.py lines 38-60) as a total function: column
alignment, name stripping, target resolution, date conversion, numeric
coercion.  It has no failure path — a frame with no date column passes
through with the date step skipped. -/
def normalize (dateFn : Cell → String × Weekday) (df : DataFrame) : DataFrame :=
  coerceNumerics (addDateCols dateFn (addTarget (stripCols (reindex df))))

/-! ## Canonical records and the engines

After normalization the engines (pivot, weekly trend, segmentation) only read
a fixed set of columns; a normalized row projects onto a canonical record. -/

structure CRecord where
  campaign : Cell
  target : Cell
  dateStr : String
  day : Weekday
  position : ℚ
  cpm : ℚ
  impressions : ℚ
  spend : ℚ
  sales : ℚ
  droas : ℚ
deriving DecidableEq, Repr

def cellQ : Cell → ℚ
  | .num q => q
  | _ => 0

def cellS : Cell → String
  | .str s => s
  | _ => ""

/-- Project a normalized row onto the canonical record shape. -/
def extractRecord (r : Row) : CRecord :=
  { campaign := getCell r "Campaign Name",
    target := getCell r "Target",
    dateStr := cellS (getCell r "date_str"),
    day := dayFromName (cellS (getCell r "Day of Week")),
    position := cellQ (getCell r "Most Viewed Position"),
    cpm := cellQ (getCell r "CPM"),
    impressions := cellQ (getCell r "Impressions"),
    spend := cellQ (getCell r "Estimated Budget Consumed"),
    sales := cellQ (getCell r "Direct Sales"),
    droas := cellQ (getCell r "Direct RoAS") }

def extractRecords (df : DataFrame) : List CRecord := df.rows.map extractRecord

/-- pandas `groupby`/`pivot_table` drop observations whose group key
(`Campaign Name` or `Target`) is `NaN`. -/
def validRows (rs : List CRecord) : List CRecord :=
  rs.filter (fun r => r.campaign ≠ Cell.na ∧ r.target ≠ Cell.na)

/-! ### Pivot builder (app.py lines 83-85) -/

/-- `pivot_metrics = ['Most Viewed Position', 'CPM', 'Impressions']`. -/
def pivotMetrics : List String := ["Most Viewed Position", "CPM", "Impressions"]

def metricValue (m : String) (r : CRecord) : ℚ :=
  if m = "Most Viewed Position" then r.position
  else if m = "CPM" then r.cpm
  else if m = "Impressions" then r.impressions
  else 0

/-- One pivot cell: `pivot_table(index=['Campaign Name','Target'],
columns='date_str', values=pivot_metrics, aggfunc='first').round(2)`.
The hard-coded `'first'` aggregation takes the first matching observation in
frame order; the cell is then rounded to two decimals.  A cell with no
matching observation is absent (`none`), not 0. -/
def pivotCell (rs : List CRecord) (camp tgt : Cell) (d m : String) : Option ℚ :=
  (((validRows rs).filter
      (fun r => r.campaign = camp ∧ r.target = tgt ∧ r.dateStr = d)).map
      (metricValue m)).head?.map round2

/-- Lexicographic comparison of char lists by code point, the comparison
Python uses on strings. -/
def listLt : List Char → List Char → Bool
  | [], [] => false
  | [], _ :: _ => true
  | _ :: _, [] => false
  | a :: as, b :: bs =>
    if a.toNat < b.toNat then true
    else if b.toNat < a.toNat then false
    else listLt as bs

def strLt (a b : String) : Bool := listLt a.toList b.toList

/-- Order on pivot column keys `(date_str, metric)` produced by
`reorder_levels([1, 0], axis=1).sort_index(axis=1)` (app.py line 85):
date string ascending, then metric name ascending — both plain string
comparisons. -/
def colLE (a b : String × String) : Prop :=
  strLt a.1 b.1 = true ∨ (a.1 = b.1 ∧ strLt b.2 a.2 = false)

instance : DecidableRel colLE := fun a b => by
  unfold colLE; infer_instance

/-- The distinct `date_str` values, in first-appearance order (sorted away
below). -/
def pivotDates (rs : List CRecord) : List String :=
  ((validRows rs).map (fun r => r.dateStr)).dedup

/-- The pivot column index after `reorder_levels` and `sort_index`:
all `(date_str, metric)` pairs, sorted date-major by string order. -/
def pivotColumns (rs : List CRecord) : List (String × String) :=
  List.insertionSort colLE
    ((pivotDates rs).flatMap (fun d => pivotMetrics.map (fun m => (d, m))))

/-! ### Weekly trend aggregator (app.py lines 105-106) -/

structure TrendRow where
  day : Weekday
  spendSum : ℚ
  salesSum : ℚ
  roas : ℚ
deriving DecidableEq, Repr

/-- `groupby('Day of Week', observed=False).agg(sum, sum)` over the ordered
categorical day, then `ROAS = (sales / spend.replace(0, 1)).round(2)`:
one row per weekday Monday→Sunday (empty days give zero sums), ROAS divides
by 1 exactly when the spend sum is exactly 0. -/
def weeklyTrend (rs : List CRecord) : List TrendRow :=
  dayOrder.map (fun d =>
    let sub := rs.filter (fun r => r.day = d)
    let sp := (sub.map (fun r => r.spend)).sum
    let sl := (sub.map (fun r => r.sales)).sum
    { day := d, spendSum := sp, salesSum := sl,
      roas := round2 (sl / (if sp = 0 then 1 else sp)) })

/-! ### Segmentation engine (app.py lines 117-140) -/

/-- The distinct `(Target, Campaign Name)` group keys (app.py groupby). -/
def groupKeys (rs : List CRecord) : List (Cell × Cell) :=
  ((validRows rs).map (fun r => (r.target, r.campaign))).dedup

def groupRows (rs : List CRecord) (k : Cell × Cell) : List CRecord :=
  (validRows rs).filter (fun r => r.target = k.1 ∧ r.campaign = k.2)

/-- A row of the performance summary (app.py lines 117-118). -/
structure PerfRow where
  target : Cell
  campaign : Cell
  sales : ℚ
  spend : ℚ
  roas : ℚ
deriving DecidableEq, Repr

/-- `groupby(['Target','Campaign Name']).agg(sum, sum)` then
`ROAS = (sales / spend.replace(0, 1)).round(2)`. -/
def mkPerfRow (rs : List CRecord) (k : Cell × Cell) : PerfRow :=
  let sub := groupRows rs k
  let sl := (sub.map (fun r => r.sales)).sum
  let sp := (sub.map (fun r => r.spend)).sum
  { target := k.1, campaign := k.2, sales := sl, spend := sp,
    roas := round2 (sl / (if sp = 0 then 1 else sp)) }

def perfSummary (rs : List CRecord) : List PerfRow :=
  (groupKeys rs).map (mkPerfRow rs)

def salesDesc (a b : PerfRow) : Prop := b.sales ≤ a.sales

instance : DecidableRel salesDesc := fun a b => by
  unfold salesDesc; infer_instance

/-- "Healthy" groups (app.py line 123): `ROAS >= perf_roas_threshold`,
sorted by sales descending. -/
def healthyBucket (rs : List CRecord) (t : ℚ) : List PerfRow :=
  List.insertionSort salesDesc ((perfSummary rs).filter (fun g => t ≤ g.roas))

/-- "Below Target" groups (app.py line 126): `0 < ROAS < perf_roas_threshold`. -/
def belowBucket (rs : List CRecord) (t : ℚ) : List PerfRow :=
  (perfSummary rs).filter (fun g => g.roas < t ∧ 0 < g.roas)

/-- A row of the waste audit (app.py lines 131-133). -/
structure WasteRow where
  target : Cell
  campaign : Cell
  sales : ℚ
  spend : ℚ
  cpmMean : ℚ
deriving DecidableEq, Repr

/-- `groupby(['Target','Campaign Name']).agg(sum, sum, mean)`. -/
def mkWasteRow (rs : List CRecord) (k : Cell × Cell) : WasteRow :=
  let sub := groupRows rs k
  { target := k.1, campaign := k.2,
    sales := (sub.map (fun r => r.sales)).sum,
    spend := (sub.map (fun r => r.spend)).sum,
    cpmMean := (sub.map (fun r => r.cpm)).sum / (sub.length : ℚ) }

/-- `waste.round(2)` (app.py line 132), applied after the filter. -/
def roundWasteRow (g : WasteRow) : WasteRow :=
  { g with sales := round2 g.sales, spend := round2 g.spend,
           cpmMean := round2 g.cpmMean }

def spendDescW (a b : WasteRow) : Prop := b.spend ≤ a.spend

instance : DecidableRel spendDescW := fun a b => by
  unfold spendDescW; infer_instance

/-- The waste audit (app.py lines 131-133): groups with zero summed sales and
spend above the configured floor, rounded, sorted by spend descending. -/
def wasteBucket (rs : List CRecord) (minW : ℚ) : List WasteRow :=
  List.insertionSort spendDescW
    ((((groupKeys rs).map (mkWasteRow rs)).filter
        (fun g => g.sales = 0 ∧ minW < g.spend)).map roundWasteRow)

/-! ### The whole invocation (app.py `main`) -/

structure EngineOutputs where
  pivotCols : List (String × String)
  weekly : Option (List TrendRow)
  healthy : List PerfRow
  below : List PerfRow
  waste : List WasteRow
deriving DecidableEq, Repr

/-- One engine invocation over an uploaded (already concatenated) frame, in
the execution order of `main()`: normalize; the campaign selector reads the
`Campaign Name` column (line 65, `KeyError` if absent); the daily-tracker
pivot reads the `date_str` column (line 84, `KeyError` if absent — this is
the first point at which a missing `date_ist` column is noticed); only then
do the weekly-trend and segmentation tabs run.  An uncaught error aborts the
invocation, so a later engine never produces output after an earlier one
failed.  The weekly tab alone is guarded by an existence check (line 104) and
silently skips when `Day of Week` is absent. -/
def runEngines (dateFn : Cell → String × Weekday) (df0 : DataFrame)
    (perfT minW : ℚ) : Except String EngineOutputs :=
  let df := normalize dateFn df0
  if "Campaign Name" ∉ df.cols then Except.error "Campaign Name"
  else if "date_str" ∉ df.cols then Except.error "date_str"
  else
    let rs := extractRecords df
    Except.ok
      { pivotCols := pivotColumns rs,
        weekly := if "Day of Week" ∈ df.cols then some (weeklyTrend rs) else none,
        healthy := healthyBucket rs perfT,
        below := belowBucket rs perfT,
        waste := wasteBucket rs minW }

/-! ### Concrete demonstration inputs used by the theorems below -/

/-- The `(Target, Campaign Name)` key column of a displayed summary table. -/
def perfKeys (l : List PerfRow) : List (Cell × Cell) :=
  l.map (fun g => (g.target, g.campaign))

def wasteKeys (l : List WasteRow) : List (Cell × Cell) :=
  l.map (fun g => (g.target, g.campaign))

/-- The round-trip scenario of the spec: one (campaign "C1", target "K1")
group, observations on dates D1, D2, D2 with position values `p1`, `p2`,
`p3`. -/
def c2Record (d : String) (p : ℚ) : CRecord :=
  { campaign := Cell.str "C1", target := Cell.str "K1", dateStr := d, day := .monday,
    position := p, cpm := 0, impressions := 0, spend := 0, sales := 0, droas := 0 }

def c2Records (p1 p2 p3 : ℚ) : List CRecord :=
  [c2Record "2024-03-01" p1, c2Record "2024-03-02" p2, c2Record "2024-03-02" p3]

/-- Two observations with dates out of order, used against C3 as stated. -/
def c3Records : List CRecord := [c2Record "2024-03-02" 2, c2Record "2024-03-01" 3]

/-- One group with summed spend 1/2 (strictly between 0 and 1) and summed
sales 1, used against C5 as stated. -/
def c5Records : List CRecord :=
  [{ campaign := Cell.str "C1", target := Cell.str "K1", dateStr := "2024-03-01",
     day := .monday, position := 0, cpm := 0, impressions := 0,
     spend := 1/2, sales := 1, droas := 0 }]

/-- The formula the claim asserts for the recomputed ROAS aggregate:
`sum(sales) / max(sum(spend), 1)`.  For comparison with the code's
`replace(0, 1)` divisor. -/
def specRoasFormula (sales spend : ℚ) : ℚ := sales / max spend 1

/-- A raw input row: campaign "C1", keyword "K1", a date, spend cell `v`,
sales 50. -/
def c6Row (v : Cell) : Row :=
  [("Campaign Name", Cell.str "C1"), ("Keyword", Cell.str "K1"),
   ("date_ist", Cell.str "2024-03-04"), ("Estimated Budget Consumed", v),
   ("Direct Sales", Cell.num 50)]

/-- A two-row uploaded frame with spend cells `v1`, `v2`. -/
def c6Df (v1 v2 : Cell) : DataFrame :=
  { cols := ["Campaign Name", "Keyword", "date_ist", "Estimated Budget Consumed",
             "Direct Sales"],
    rows := [c6Row v1, c6Row v2] }

/-- Date decoding for `c6Df`: 2024-03-04 is a Monday. -/
def demoDateFn : Cell → String × Weekday := fun _ => ("2024-03-04", .monday)

/-- One Monday observation with spend 0 and sales 50 (spec scenario). -/
def c7GoodRecords : List CRecord :=
  [{ campaign := Cell.str "C1", target := Cell.str "K1", dateStr := "2024-03-04",
     day := .monday, position := 0, cpm := 0, impressions := 0,
     spend := 0, sales := 50, droas := 0 }]

/-- One Monday observation with spend 3 and sales 1, used against C7 as
stated. -/
def c7BadRecords : List CRecord :=
  [{ campaign := Cell.str "C1", target := Cell.str "K1", dateStr := "2024-03-04",
     day := .monday, position := 0, cpm := 0, impressions := 0,
     spend := 3, sales := 1, droas := 0 }]

/-- A one-row upload with a campaign, a keyword and a position metric but no
date column. -/
def c1Df : DataFrame :=
  { cols := ["Campaign Name", "Keyword", "Most Viewed Position"],
    rows := [[("Campaign Name", Cell.str "C1"), ("Keyword", Cell.str "K1"),
              ("Most Viewed Position", Cell.num 2)]] }

/-! ## Helper lemmas -/

theorem round2_zero : round2 0 = 0 := by
  simp [round2]

theorem char_eq_of_toNat_eq {a b : Char} (h : a.toNat = b.toNat) : a = b := by
  apply Char.eq_of_val_eq
  apply UInt32.ext
  simpa [Char.toNat] using h

theorem listLt_asymm : ∀ a b : List Char, listLt a b = true → listLt b a = false
  | [], [] => by simp [listLt]
  | [], _ :: _ => by simp [listLt]
  | _ :: _, [] => by simp [listLt]
  | x :: xs, y :: ys => by
    intro h
    simp only [listLt] at h ⊢
    rcases Nat.lt_trichotomy x.toNat y.toNat with h1 | h1 | h1
    · simp [h1, Nat.lt_asymm h1]
    · simp only [h1, Nat.lt_irrefl, if_false] at h ⊢
      exact listLt_asymm xs ys h
    · simp [h1, Nat.lt_asymm h1] at h

theorem listLt_trans :
    ∀ a b c : List Char, listLt a b = true → listLt b c = true → listLt a c = true
  | [], [], _ => by simp [listLt]
  | [], _ :: _, [] => by simp [listLt]
  | [], _ :: _, _ :: _ => by simp [listLt]
  | _ :: _, [], _ => by simp [listLt]
  | _ :: _, _ :: _, [] => by simp [listLt]
  | x :: xs, y :: ys, z :: zs => by
    intro h1 h2
    simp only [listLt] at h1 h2 ⊢
    rcases Nat.lt_trichotomy x.toNat y.toNat with hxy | hxy | hxy
    · rcases Nat.lt_trichotomy y.toNat z.toNat with hyz | hyz | hyz
      · simp [show x.toNat < z.toNat by omega]
      · simp [show x.toNat < z.toNat by omega]
      · simp [show ¬ y.toNat < z.toNat by omega, hyz] at h2
    · rcases Nat.lt_trichotomy y.toNat z.toNat with hyz | hyz | hyz
      · simp [show x.toNat < z.toNat by omega]
      · simp only [show ¬ x.toNat < y.toNat by omega, show ¬ y.toNat < x.toNat by omega,
          show ¬ y.toNat < z.toNat by omega, show ¬ z.toNat < y.toNat by omega,
          show ¬ x.toNat < z.toNat by omega, show ¬ z.toNat < x.toNat by omega,
          if_false] at h1 h2 ⊢
        exact listLt_trans xs ys zs h1 h2
      · simp [show ¬ y.toNat < z.toNat by omega, hyz] at h2
    · simp [show ¬ x.toNat < y.toNat by omega, hxy] at h1
  termination_by a _ _ => a.length

theorem listLt_total_eq :
    ∀ a b : List Char, listLt a b = false → listLt b a = false → a = b
  | [], [] => by simp
  | [], _ :: _ => by simp [listLt]
  | _ :: _, [] => by simp [listLt]
  | x :: xs, y :: ys => by
    intro h1 h2
    simp only [listLt] at h1 h2
    rcases Nat.lt_trichotomy x.toNat y.toNat with hxy | hxy | hxy
    · simp [hxy] at h1
    · simp only [hxy, Nat.lt_irrefl, if_false] at h1 h2
      rw [char_eq_of_toNat_eq hxy, listLt_total_eq xs ys h1 h2]
    · simp [hxy, Nat.lt_asymm hxy] at h2

theorem strLt_asymm {a b : String} (h : strLt a b = true) : strLt b a = false :=
  listLt_asymm _ _ h

theorem strLt_trans {a b c : String} (h1 : strLt a b = true) (h2 : strLt b c = true) :
    strLt a c = true :=
  listLt_trans _ _ _ h1 h2

theorem strLt_total_eq {a b : String} (h1 : strLt a b = false)
    (h2 : strLt b a = false) : a = b := by
  cases a with
  | mk da => cases b with
    | mk db =>
      have : da = db := listLt_total_eq da db h1 h2
      rw [this]

instance : IsTotal (String × String) colLE := by
  constructor
  intro a b
  rcases hd : strLt a.1 b.1 with _ | _
  · rcases hd2 : strLt b.1 a.1 with _ | _
    · have he : a.1 = b.1 := strLt_total_eq hd hd2
      rcases hm : strLt b.2 a.2 with _ | _
      · exact Or.inl (Or.inr ⟨he, hm⟩)
      · exact Or.inr (Or.inr ⟨he.symm, strLt_asymm hm⟩)
    · exact Or.inr (Or.inl hd2)
  · exact Or.inl (Or.inl hd)

instance : IsTrans (String × String) colLE := by
  constructor
  intro a b c hab hbc
  rcases hab with hab | ⟨hab, mab⟩
  · rcases hbc with hbc | ⟨hbc, _⟩
    · exact Or.inl (strLt_trans hab hbc)
    · exact Or.inl (hbc ▸ hab)
  · rcases hbc with hbc | ⟨hbc, mbc⟩
    · exact Or.inl (hab ▸ hbc)
    · refine Or.inr ⟨hab.trans hbc, ?_⟩
      rcases hca : strLt c.2 a.2 with _ | _
      · rfl
      · rcases hab2 : strLt a.2 b.2 with _ | _
        · have : a.2 = b.2 := strLt_total_eq hab2 mab
          rw [← this] at mbc
          rw [hca] at mbc
          exact mbc
        · have := strLt_trans hca hab2
          rw [this] at mbc
          exact mbc

end Blinkit

namespace Blinkit


theorem mkPerfRow_key (rs : List CRecord) (k : Cell × Cell) :
    ((mkPerfRow rs k).target, (mkPerfRow rs k).campaign) = k := by
  cases k
  rfl

theorem mkWasteRow_key (rs : List CRecord) (k : Cell × Cell) :
    ((mkWasteRow rs k).target, (mkWasteRow rs k).campaign) = k := by
  cases k
  rfl

/-- The performance summary and the waste audit aggregate the same record
group, so a group's summed sales agree between the two tables. -/
theorem wasteRow_sales_eq (rs : List CRecord) (k : Cell × Cell) :
    (mkWasteRow rs k).sales = (mkPerfRow rs k).sales := rfl

theorem perfRow_roas_eq (rs : List CRecord) (k : Cell × Cell) :
    (mkPerfRow rs k).roas =
      round2 ((mkPerfRow rs k).sales /
        (if (mkPerfRow rs k).spend = 0 then 1 else (mkPerfRow rs k).spend)) := rfl

theorem healthy_key_roas {rs : List CRecord} {t : ℚ} {k : Cell × Cell}
    (h : k ∈ perfKeys (healthyBucket rs t)) : t ≤ (mkPerfRow rs k).roas := by
  rcases List.mem_map.mp h with ⟨g, hg, rfl⟩
  rw [healthyBucket, List.mem_insertionSort, List.mem_filter] at hg
  rcases hg with ⟨hgs, hcond⟩
  rcases List.mem_map.mp hgs with ⟨k', _, rfl⟩
  rw [mkPerfRow_key]
  exact of_decide_eq_true hcond

theorem below_key_roas {rs : List CRecord} {t : ℚ} {k : Cell × Cell}
    (h : k ∈ perfKeys (belowBucket rs t)) :
    (mkPerfRow rs k).roas < t ∧ 0 < (mkPerfRow rs k).roas := by
  rcases List.mem_map.mp h with ⟨g, hg, rfl⟩
  rw [belowBucket, List.mem_filter] at hg
  rcases hg with ⟨hgs, hcond⟩
  rcases List.mem_map.mp hgs with ⟨k', _, rfl⟩
  rw [mkPerfRow_key]
  simpa using hcond

theorem waste_key_sales {rs : List CRecord} {minW : ℚ} {k : Cell × Cell}
    (h : k ∈ wasteKeys (wasteBucket rs minW)) : (mkPerfRow rs k).sales = 0 := by
  rcases List.mem_map.mp h with ⟨g, hg, rfl⟩
  rw [wasteBucket, List.mem_insertionSort] at hg
  rcases List.mem_map.mp hg with ⟨g0, hg0, rfl⟩
  rcases List.mem_filter.mp hg0 with ⟨hgs, hcond⟩
  rcases List.mem_map.mp hgs with ⟨k', _, rfl⟩
  have hkey : ((roundWasteRow (mkWasteRow rs k')).target,
      (roundWasteRow (mkWasteRow rs k')).campaign) = k' := mkWasteRow_key rs k'
  rw [hkey]
  have hs : (mkWasteRow rs k').sales = 0 := by
    have hd := of_decide_eq_true (by simpa using hcond :
      decide ((mkWasteRow rs k').sales = 0 ∧ minW < (mkWasteRow rs k').spend) = true)
    exact hd.1
  rw [← wasteRow_sales_eq]
  exact hs

/-- A group with zero summed sales has ROAS exactly 0 (its ROAS is
`round2 (0 / divisor)` whatever divisor the zero-spend guard picked). -/
theorem sales_zero_roas_zero (rs : List CRecord) (k : Cell × Cell)
    (h : (mkPerfRow rs k).sales = 0) : (mkPerfRow rs k).roas = 0 := by
  rw [perfRow_roas_eq, h]
  simp [round2_zero]


/-- C2 (amended): the pivot builder hard-codes the `'first'` aggregation
(app.py line 84) — there is no caller-configurable per-metric policy.  For
the spec's round-trip scenario (dates D1, D2, D2 with position values `p1`,
`p2`, `p3`), the (group, D2, position) cell is the first D2 observation
`p2` rounded to two decimals, whatever the duplicate `p3` is; the D1 cell
is `p1` rounded. -/
theorem c2_pivot_first_aggregation (p1 p2 p3 : ℚ) :
    pivotCell (c2Records p1 p2 p3) (Cell.str "C1") (Cell.str "K1")
        "2024-03-02" "Most Viewed Position" = some (round2 p2) ∧
    pivotCell (c2Records p1 p2 p3) (Cell.str "C1") (Cell.str "K1")
        "2024-03-01" "Most Viewed Position" = some (round2 p1) := by
  constructor
  · simp [pivotCell, c2Records, c2Record, validRows, metricValue]
  · simp [pivotCell, c2Records, c2Record, validRows, metricValue]

/-- Counterexample to C2 as stated: with position values 2, 4, 6 the D2
pivot cell is 4 (the first D2 value), not the mean 5.0 that the "mean"
policy of the claim would give. -/
theorem c2_pivot_first_aggregation_counterexample :
    pivotCell (c2Records 2 4 6) (Cell.str "C1") (Cell.str "K1")
        "2024-03-02" "Most Viewed Position" = some 4 ∧ (4 : ℚ) ≠ 5 := by
  constructor
  · simp [pivotCell, c2Records, c2Record, validRows, metricValue]
    rw [round2, round_eq]
    norm_num
  · norm_num

/-- Witness for C2 (amended) at the spec's concrete values 2, 4, 6. -/
theorem c2_pivot_first_aggregation_witness :
    pivotCell (c2Records 2 4 6) (Cell.str "C1") (Cell.str "K1")
        "2024-03-02" "Most Viewed Position" = some (round2 4) ∧
    pivotCell (c2Records 2 4 6) (Cell.str "C1") (Cell.str "K1")
        "2024-03-01" "Most Viewed Position" = some (round2 2) :=
  c2_pivot_first_aggregation 2 4 6

/-- C3 (amended): the pivot's column index, after `reorder_levels([1,0])`
and `sort_index(axis=1)` (app.py line 85), consists of every
(date, metric) pair and is sorted by plain string comparison, date-major:
dates ascending (lexicographic, which coincides with chronological order for
the zero-padded "YYYY-MM-DD" strings produced by `strftime`), and within a
date the metric names in alphabetical order — "CPM", "Impressions",
"Most Viewed Position" — not in the declared order position, cpm,
impressions. -/
theorem c3_pivot_column_order (rs : List CRecord) :
    (pivotColumns rs).Sorted colLE ∧
    (∀ d m, (d, m) ∈ pivotColumns rs ↔ d ∈ pivotDates rs ∧ m ∈ pivotMetrics) := by
  constructor
  · exact List.sorted_insertionSort colLE _
  · intro d m
    simp [pivotColumns, List.mem_flatMap, List.mem_map, Prod.mk.injEq]

/-- Witness for C3 (amended): sortedness and the column-membership
characterization evaluated on a concrete record set. -/
theorem c3_pivot_column_order_witness :
    (pivotColumns [c2Record "2024-03-05" 1]).Sorted colLE ∧
    (("2024-03-05", "CPM") ∈ pivotColumns [c2Record "2024-03-05" 1] ↔
      "2024-03-05" ∈ pivotDates [c2Record "2024-03-05" 1] ∧ "CPM" ∈ pivotMetrics) :=
  ⟨(c3_pivot_column_order [c2Record "2024-03-05" 1]).1,
   (c3_pivot_column_order [c2Record "2024-03-05" 1]).2 "2024-03-05" "CPM"⟩


/-- Counterexample to C3 as stated: for input dates 2024-03-02, 2024-03-01
the column index does put 2024-03-01 first, but within each date the
metrics are ordered "CPM", "Impressions", "Most Viewed Position"
(alphabetically), so the first metric under a date is "CPM", not the
claimed "Most Viewed Position" (position). -/
theorem c3_pivot_column_order_counterexample :
    pivotColumns c3Records =
      [("2024-03-01", "CPM"), ("2024-03-01", "Impressions"),
       ("2024-03-01", "Most Viewed Position"),
       ("2024-03-02", "CPM"), ("2024-03-02", "Impressions"),
       ("2024-03-02", "Most Viewed Position")] ∧
    ("CPM" : String) ≠ "Most Viewed Position" := by
  constructor
  · decide
  · decide

/-- C4: for every record set and every thresholds setting reachable through
the sliders (the performance-ROAS slider's range is 0.5-5.0, hence the
threshold is positive), a (target, campaign) group appears in at most one of
the healthy table (TopPerformers), the below-target table (Underperformers)
and the zero-sales waste table: healthy and below-target split on the
threshold, and a zero-sales group has ROAS exactly 0, which is neither
`>= t` nor `> 0`. -/
theorem c4_segmentation_mutually_exclusive (rs : List CRecord) (t minW : ℚ)
    (ht : 0 < t) (k : Cell × Cell) :
    ¬(k ∈ perfKeys (healthyBucket rs t) ∧ k ∈ perfKeys (belowBucket rs t)) ∧
    ¬(k ∈ perfKeys (healthyBucket rs t) ∧ k ∈ wasteKeys (wasteBucket rs minW)) ∧
    ¬(k ∈ perfKeys (belowBucket rs t) ∧ k ∈ wasteKeys (wasteBucket rs minW)) := by
  refine ⟨?_, ?_, ?_⟩
  · rintro ⟨h1, h2⟩
    exact absurd (below_key_roas h2).1 (not_lt.mpr (healthy_key_roas h1))
  · rintro ⟨h1, h2⟩
    have hz := sales_zero_roas_zero rs k (waste_key_sales h2)
    have hle := healthy_key_roas h1
    rw [hz] at hle
    exact absurd (lt_of_lt_of_le ht hle) (lt_irrefl 0)
  · rintro ⟨h1, h2⟩
    have hz := sales_zero_roas_zero rs k (waste_key_sales h2)
    have hlt := (below_key_roas h1).2
    rw [hz] at hlt
    exact lt_irrefl 0 hlt

/-- Witness for C4 at the UI default thresholds (1.4, 200) and a concrete
group key. -/
theorem c4_segmentation_mutually_exclusive_witness :
    0 < (7 : ℚ) / 5 ∧
    (¬((Cell.str "K1", Cell.str "C1") ∈
          perfKeys (healthyBucket [c2Record "2024-03-01" 1] (7 / 5)) ∧
        (Cell.str "K1", Cell.str "C1") ∈
          perfKeys (belowBucket [c2Record "2024-03-01" 1] (7 / 5))) ∧
      ¬((Cell.str "K1", Cell.str "C1") ∈
          perfKeys (healthyBucket [c2Record "2024-03-01" 1] (7 / 5)) ∧
        (Cell.str "K1", Cell.str "C1") ∈
          wasteKeys (wasteBucket [c2Record "2024-03-01" 1] 200)) ∧
      ¬((Cell.str "K1", Cell.str "C1") ∈
          perfKeys (belowBucket [c2Record "2024-03-01" 1] (7 / 5)) ∧
        (Cell.str "K1", Cell.str "C1") ∈
          wasteKeys (wasteBucket [c2Record "2024-03-01" 1] 200))) :=
  ⟨by norm_num,
   c4_segmentation_mutually_exclusive [c2Record "2024-03-01" 1] (7 / 5) 200
     (by norm_num) (Cell.str "K1", Cell.str "C1")⟩


/-- C5 (amended): the segmentation engine's recomputed ROAS aggregate is
`round2(sum(sales) / divisor)` where the divisor is `sum(spend)` unless the
summed spend is exactly 0, in which case it is 1 (`replace(0, 1)`,
app.py line 118) — not `max(sum(spend), 1)`: a group with summed spend
strictly between 0 and 1 divides by that spend itself. -/
theorem c5_roas_divisor (rs : List CRecord) (g : PerfRow)
    (h : g ∈ perfSummary rs) :
    g.roas = round2 (g.sales / (if g.spend = 0 then 1 else g.spend)) ∧
    (g.spend = 0 → g.roas = round2 g.sales) := by
  rcases List.mem_map.mp h with ⟨k, _, rfl⟩
  constructor
  · exact perfRow_roas_eq rs k
  · intro h0
    rw [perfRow_roas_eq rs k, h0]
    simp

/-- Counterexample to C5 as stated: the single group of `c5Records` has
summed spend 1/2 ∈ (0, 1] and summed sales 1; the engine's ROAS is
1 / (1/2) = 2, while the claimed formula `sales / max(spend, 1)` gives 1. -/
theorem c5_roas_divisor_counterexample :
    (perfSummary c5Records).map (fun g => g.roas) = [2] ∧
    specRoasFormula 1 (1/2) = 1 ∧ ((2 : ℚ) ≠ 1) := by
  refine ⟨?_, ?_, by norm_num⟩
  · simp [perfSummary, groupKeys, mkPerfRow, groupRows, validRows, c5Records,
      List.dedup]
    rw [round2, round_eq]
    norm_num
  · simp [specRoasFormula]
    norm_num

/-- Witness for C5 (amended) on the concrete group of `c5Records`. -/
theorem c5_roas_divisor_witness :
    (⟨Cell.str "K1", Cell.str "C1", 1, 1/2, 2⟩ : PerfRow) ∈ perfSummary c5Records ∧
    (⟨Cell.str "K1", Cell.str "C1", 1, 1/2, 2⟩ : PerfRow).roas =
      round2 ((⟨Cell.str "K1", Cell.str "C1", 1, 1/2, 2⟩ : PerfRow).sales /
        (if (⟨Cell.str "K1", Cell.str "C1", 1, 1/2, 2⟩ : PerfRow).spend = 0 then 1
         else (⟨Cell.str "K1", Cell.str "C1", 1, 1/2, 2⟩ : PerfRow).spend)) := by
  have hm : (⟨Cell.str "K1", Cell.str "C1", 1, 1/2, 2⟩ : PerfRow) ∈
      perfSummary c5Records := by
    have he : perfSummary c5Records =
        [⟨Cell.str "K1", Cell.str "C1", 1, 1/2, 2⟩] := by
      simp [perfSummary, groupKeys, mkPerfRow, groupRows, validRows, c5Records,
        List.dedup]
      rw [round2, round_eq]
      norm_num
    rw [he]
    exact List.mem_singleton.mpr rfl
  exact ⟨hm, (c5_roas_divisor c5Records _ hm).1⟩


/-- End-to-end evaluation of normalization plus the weekly aggregator on
`c6Df`: the Monday bucket's spend sum is the sum of the two spend values as
rounded individually by the normalizer, `round2 q1 + round2 q2`. -/
theorem c6Df_weekly_spendSums (q1 q2 : ℚ) :
    (weeklyTrend (extractRecords (normalize demoDateFn
        (c6Df (Cell.num q1) (Cell.num q2))))).map (fun row => row.spendSum) =
      [round2 q1 + round2 q2, 0, 0, 0, 0, 0, 0] := by
  simp [weeklyTrend, dayOrder, extractRecords, extractRecord, normalize,
    coerceNumerics, addDateCols, addTarget, setCol, stripCols, reindex,
    c6Df, c6Row, demoDateFn, getCell, resolveTarget, numericCols, coerceCell,
    cellQ, cellS, dayFromName, dayName, trimStr, isSpaceChar, List.find?]

/-- C6 (amended): rounding to two decimals is applied already by the
normalizer's numeric coercion (app.py line 60), before any aggregation — the
engines' means and sums consume pre-rounded values, and the pivot is rounded
a second time after aggregation.  Concretely, each spend value `q` reaches
the record set as `round2 q`, and the weekly spend sum over `c6Df` is
`round2 q1 + round2 q2`, not `q1 + q2` at full precision. -/
theorem c6_rounding_before_aggregation (q1 q2 : ℚ) :
    coerceCell (Cell.num q1) = round2 q1 ∧
    (weeklyTrend (extractRecords (normalize demoDateFn
        (c6Df (Cell.num q1) (Cell.num q2))))).map (fun row => row.spendSum) =
      [round2 q1 + round2 q2, 0, 0, 0, 0, 0, 0] :=
  ⟨rfl, c6Df_weekly_spendSums q1 q2⟩

/-- Counterexample to C6 as stated: two rows with spend 1/250 = 0.004 each.
The normalizer rounds each to 0 before aggregation, so the weekly spend sum
is 0, though the full-precision sum 0.004 + 0.004 is nonzero — aggregation
does not operate on full-precision input values. -/
theorem c6_rounding_before_aggregation_counterexample :
    round2 ((1 : ℚ)/250) = 0 ∧
    (weeklyTrend (extractRecords (normalize demoDateFn
        (c6Df (Cell.num (1/250)) (Cell.num (1/250)))))).map
        (fun row => row.spendSum) =
      [0, 0, 0, 0, 0, 0, 0] ∧
    ((1 : ℚ)/250 + 1/250 ≠ 0) := by
  have h0 : round2 ((1 : ℚ)/250) = 0 := by
    rw [round2, round_eq]
    norm_num
  refine ⟨h0, ?_, by norm_num⟩
  rw [c6Df_weekly_spendSums (1/250) (1/250), h0]
  norm_num


/-- C7 (amended): every bucket of the weekly trend has
`roas = round2(sales_sum / divisor)` where the divisor is the bucket's spend
sum unless that sum is exactly 0, in which case it is 1
(`replace(0, 1)`, app.py line 106) — so a zero-spend bucket yields
`round2(sales_sum)`, a defined rational, never an error.  The claim's
formula holds only up to the final rounding to two decimals. -/
theorem c7_weekly_roas_guard (rs : List CRecord) (row : TrendRow)
    (h : row ∈ weeklyTrend rs) :
    row.roas = round2 (row.salesSum / (if row.spendSum = 0 then 1 else row.spendSum)) ∧
    (row.spendSum = 0 → row.roas = round2 row.salesSum) := by
  have h1 : row.roas =
      round2 (row.salesSum / (if row.spendSum = 0 then 1 else row.spendSum)) := by
    rcases List.mem_map.mp h with ⟨d, _, rfl⟩
    rfl
  refine ⟨h1, fun h0 => ?_⟩
  rw [h1, h0]
  simp

/-- Counterexample to C7 as stated: a Monday bucket with sales_sum 1 and
spend_sum 3 gets `roas = 0.33`, not the exact ratio 1/3 the claim's equation
demands — the division is followed by rounding to two decimals. -/
theorem c7_weekly_roas_guard_counterexample :
    (weeklyTrend c7BadRecords).map (fun row => row.roas) =
      [33/100, 0, 0, 0, 0, 0, 0] ∧ ((33 : ℚ)/100 ≠ 1/3) := by
  constructor
  · simp [weeklyTrend, dayOrder, c7BadRecords]
    norm_num [round2, round_eq]
  · norm_num

/-- Witness for C7 (amended): the spec's bucket with spend_sum 0 and
sales_sum 50 is produced for Monday, the theorem applies to it, and its
roas is exactly 50 — not NaN and not an error. -/
theorem c7_weekly_roas_guard_witness :
    (⟨.monday, 0, 50, 50⟩ : TrendRow) ∈ weeklyTrend c7GoodRecords ∧
    (⟨.monday, 0, 50, 50⟩ : TrendRow).roas =
      round2 ((⟨.monday, 0, 50, 50⟩ : TrendRow).salesSum /
        (if (⟨.monday, 0, 50, 50⟩ : TrendRow).spendSum = 0 then 1
         else (⟨.monday, 0, 50, 50⟩ : TrendRow).spendSum)) ∧
    (⟨.monday, 0, 50, 50⟩ : TrendRow).roas = 50 := by
  have hm : (⟨.monday, 0, 50, 50⟩ : TrendRow) ∈ weeklyTrend c7GoodRecords := by
    have he : weeklyTrend c7GoodRecords =
        [⟨.monday, 0, 50, 50⟩, ⟨.tuesday, 0, 0, 0⟩, ⟨.wednesday, 0, 0, 0⟩,
         ⟨.thursday, 0, 0, 0⟩, ⟨.friday, 0, 0, 0⟩, ⟨.saturday, 0, 0, 0⟩,
         ⟨.sunday, 0, 0, 0⟩] := by
      simp [weeklyTrend, dayOrder, c7GoodRecords]
      norm_num [round2, round_eq]
    rw [he]
    simp
  exact ⟨hm, (c7_weekly_roas_guard c7GoodRecords _ hm).1, rfl⟩

/-- C8: Target resolution follows the fixed priority Keyword > Category Name
> Asset: whenever both a `Keyword` and a `Category Name` column are present
in the (trimmed) combined column index, the resolved target is the row's
`Keyword` cell, copied verbatim without trimming; when none of the three
columns is present, every row's target is the sentinel "N/A". -/
theorem c8_target_priority (cols : List String) (r : Row) :
    ("Keyword" ∈ cols → "Category Name" ∈ cols →
      resolveTarget cols r = getCell r "Keyword") ∧
    ("Keyword" ∉ cols → "Category Name" ∉ cols → "Asset" ∉ cols →
      resolveTarget cols r = Cell.str "N/A") := by
  constructor
  · intro hk _
    simp [resolveTarget, hk]
  · intro hk hc ha
    simp [resolveTarget, hk, hc, ha]

/-- Witness for C8 at a concrete input: with both columns present the target
is the untrimmed Keyword value " K "; with none of the three columns it is
"N/A". -/
theorem c8_target_priority_witness :
    resolveTarget ["Keyword", "Category Name"]
        [("Keyword", Cell.str " K "), ("Category Name", Cell.str "C")] =
      Cell.str " K " ∧
    resolveTarget ["Campaign Name"] [("Campaign Name", Cell.str "C1")] =
      Cell.str "N/A" :=
  ⟨Eq.trans
      ((c8_target_priority ["Keyword", "Category Name"]
          [("Keyword", Cell.str " K "), ("Category Name", Cell.str "C")]).1
        (by decide) (by decide))
      (by decide),
   (c8_target_priority ["Campaign Name"] [("Campaign Name", Cell.str "C1")]).2
     (by decide) (by decide) (by decide)⟩

/-- C9: a metric value that fails to parse as a number is coerced to 0 by
the numeric-conversion step (`to_numeric(errors='coerce').fillna(0)`,
app.py line 60); the coercion is a total function into ℚ, so it neither
raises nor leaves the original string in the field. -/
theorem c9_unparseable_becomes_zero (s : String) (h : parseNum s = none) :
    coerceCell (Cell.str s) = 0 := by
  simp [coerceCell, h, round2_zero]

/-- Witness for C9: the non-numeric string "abc" does not parse and coerces
to 0. -/
theorem c9_unparseable_becomes_zero_witness :
    parseNum "abc" = none ∧ coerceCell (Cell.str "abc") = 0 :=
  ⟨by decide, c9_unparseable_becomes_zero "abc" (by decide)⟩

/-- C10: target resolution is decided on the combined column index, not per
row: when a `Keyword` column exists anywhere in the combined set, every row's
target is its own `Keyword` cell — a row whose `Keyword` cell is missing
gets a missing (`NaN`) target, not "N/A" and not a fallback to its
`Category Name` or `Asset` value; the sentinel "N/A" is assigned (to all
rows) only when none of the three columns exists. -/
theorem c10_frame_level_resolution (cols : List String) (r : Row) :
    ("Keyword" ∈ cols → resolveTarget cols r = getCell r "Keyword") ∧
    ("Keyword" ∈ cols → getCell r "Keyword" = Cell.na →
      resolveTarget cols r = Cell.na ∧ resolveTarget cols r ≠ Cell.str "N/A") ∧
    ("Keyword" ∉ cols → "Category Name" ∉ cols → "Asset" ∉ cols →
      resolveTarget cols r = Cell.str "N/A") := by
  refine ⟨?_, ?_, ?_⟩
  · intro hk
    simp [resolveTarget, hk]
  · intro hk hna
    simp [resolveTarget, hk, hna]
  · intro hk hc ha
    simp [resolveTarget, hk, hc, ha]

/-- Witness for C10: all three identifier columns exist; a row with no
`Keyword` cell but a `Category Name` cell resolves to a missing target, not
to "C" and not to "N/A". -/
theorem c10_frame_level_resolution_witness :
    getCell [("Category Name", Cell.str "C"), ("Asset", Cell.str "A")] "Keyword" =
      Cell.na ∧
    resolveTarget ["Keyword", "Category Name", "Asset"]
        [("Category Name", Cell.str "C"), ("Asset", Cell.str "A")] = Cell.na ∧
    resolveTarget ["Keyword", "Category Name", "Asset"]
        [("Category Name", Cell.str "C"), ("Asset", Cell.str "A")] ≠
      Cell.str "N/A" :=
  ⟨by decide,
   ((c10_frame_level_resolution ["Keyword", "Category Name", "Asset"]
        [("Category Name", Cell.str "C"), ("Asset", Cell.str "A")]).2.1
      (by decide) (by decide)).1,
   ((c10_frame_level_resolution ["Keyword", "Category Name", "Asset"]
        [("Category Name", Cell.str "C"), ("Asset", Cell.str "A")]).2.1
      (by decide) (by decide)).2⟩

end Blinkit

namespace Blinkit

/-- Normalization never drops or invents rows: one canonical record per raw
row, whether or not the date column is present. -/
theorem normalize_rows_length (f : Cell → String × Weekday) (df : DataFrame) :
    (normalize f df).rows.length = df.rows.length := by
  unfold normalize coerceNumerics
  simp only [List.length_map]
  unfold addDateCols
  split
  · simp [setCol, addTarget, stripCols, reindex]
  · simp [setCol, addTarget, stripCols, reindex]

/-- When the (trimmed) input has no `date_ist` column, the normalized frame's
column index is the trimmed input index plus the appended `Target` column —
in particular no `date_str` column exists. -/
theorem normalize_cols_no_date (f : Cell → String × Weekday) (df : DataFrame)
    (h1 : "date_ist" ∉ df.cols.map trimStr) :
    (normalize f df).cols =
      ((df.cols.map trimStr).filter (fun x => x ≠ "Target")) ++ ["Target"] := by
  have hcond : "date_ist" ∉ (addTarget (stripCols (reindex df))).cols := by
    simp only [addTarget, setCol, stripCols, reindex]
    intro hmem
    rcases List.mem_append.mp hmem with hm | hm
    · exact h1 (List.mem_of_mem_filter hm)
    · simp at hm
  unfold normalize coerceNumerics addDateCols
  rw [if_neg hcond]
  simp [addTarget, setCol, stripCols, reindex]

/-- C1 (amended): a missing date column is not a normalization failure — the
normalizer is total and still produces one canonical record per input row
(without date fields); the invocation then aborts when the daily-tracker
pivot asks for the absent `date_str` column (a `KeyError` at app.py line 84,
the first engine to run), so no engine output — pivot, weekly trend or
segmentation — is produced for that invocation.  (The hypothesis also
excludes a literal pre-existing `date_str` column, which the pivot would
happily consume.) -/
theorem c1_missing_date_aborts_engines (f : Cell → String × Weekday)
    (df : DataFrame) (t minW : ℚ)
    (h1 : "date_ist" ∉ df.cols.map trimStr)
    (h2 : "date_str" ∉ df.cols.map trimStr) :
    (normalize f df).rows.length = df.rows.length ∧
    (runEngines f df t minW).toOption = none := by
  refine ⟨normalize_rows_length f df, ?_⟩
  have hcols : "date_str" ∉ (normalize f df).cols := by
    rw [normalize_cols_no_date f df h1]
    intro hmem
    rcases List.mem_append.mp hmem with hmem | hmem
    · exact h2 (List.mem_of_mem_filter hmem)
    · simp at hmem
  unfold runEngines
  by_cases hc : "Campaign Name" ∉ (normalize f df).cols
  · simp [hc, Except.toOption]
  · simp [hc, hcols, Except.toOption]


/-- Witness for C1 (amended) on the concrete date-less frame `c1Df` at the
UI default thresholds. -/
theorem c1_missing_date_aborts_engines_witness :
    ("date_ist" ∉ c1Df.cols.map trimStr) ∧
    ("date_str" ∉ c1Df.cols.map trimStr) ∧
    ((normalize demoDateFn c1Df).rows.length = c1Df.rows.length ∧
      (runEngines demoDateFn c1Df (7/5) 200).toOption = none) :=
  ⟨by decide, by decide,
   c1_missing_date_aborts_engines demoDateFn c1Df (7/5) 200 (by decide) (by decide)⟩

/-- Counterexample to C1 as stated: on the date-less frame `c1Df`,
normalization does not fail and produces one canonical record (the claim
says it produces none); the engines are aborted downstream instead. -/
theorem c1_missing_date_aborts_engines_counterexample :
    (normalize demoDateFn c1Df).rows.length = 1 ∧
    (runEngines demoDateFn c1Df (7/5) 200).toOption = none ∧ (1 : ℕ) ≠ 0 := by
  refine ⟨?_, ?_, by norm_num⟩
  · rw [normalize_rows_length]
    rfl
  · decide

end Blinkit
